import Mathlib

/-!
Verification of the candidate-generation core of citeomatic
(`src/citeomatic/candidate_selectors.py`) against its specification.

The two selectors (`ANNCandidateSelector`, `BM25CandidateSelector`) are
embedded as pure Lean functions over explicit models of their external
collaborators (corpus, embedding model, nearest-neighbor index, lexical
searcher).  Fallible corpus lookups are modelled with `Except`.
-/

namespace Citeomatic

/-- Opaque document identifier. -/
abbrev DocId := Nat

/-- A document record: title, abstract, outbound citation ids
(`Document.title`, `Document.abstract`, `Document.out_citations` in the
spec's corpus interface). -/
structure Document where
  title : String
  abstract : String
  out_citations : List DocId
deriving DecidableEq, Repr

/-- Modelled from the spec: the `Corpus` class (`citeomatic.corpus`) is not
under `src/`; per the spec's external interface it is a read-only lookup
`get(doc_id) -> Document | NotFoundError`.  We model it as an association
list keyed by `DocId`. -/
def Corpus := List (DocId × Document)

/-- Modelled from the spec: `corpus[doc_id]` resolves an id to its document
record, or fails (`NotFoundError`) when the id is absent. -/
def Corpus.get (c : Corpus) (i : DocId) : Option Document :=
  List.lookup i c

/-- Failure surfaced by `fetch_candidates`: a `NotFound` for the id that
could not be resolved against the corpus (Python raises a key error from
`self.corpus[...]`). -/
inductive FetchError where
  | notFound (id : DocId)
deriving DecidableEq, Repr

/-- Embedding vectors; treated as opaque data (never inspected by the
selector code, only passed from the embedding model to the index). -/
abbrev Vec := List Int

/-- The citation-expansion loop shared by both selectors
(`candidate_selectors.py` lines 56-59 and 97-99): for each retrieved
candidate id, in order, append `corpus[candidate_id].out_citations`;
the lookup raises at the first candidate absent from the corpus. -/
def extendCitations (corpus : Corpus) : List DocId → Except FetchError (List DocId)
  | [] => Except.ok []
  | cid :: rest =>
    match corpus.get cid with
    | none => Except.error (FetchError.notFound cid)
    | some d =>
      match extendCitations corpus rest with
      | Except.error e => Except.error e
      | Except.ok tail => Except.ok (d.out_citations ++ tail)

/-- `ANNCandidateSelector` (lines 29-65): a corpus, an embedding model
(`paper_embedding_model.embed`), an approximate nearest-neighbor index
(`ann.get_nns_by_vector`), `top_k` and the `extend_candidate_citations`
flag, all fixed at construction. -/
structure ANNCandidateSelector where
  corpus : Corpus
  embed : Document → Vec
  get_nns_by_vector : Vec → Nat → List DocId
  top_k : Nat
  extend_candidate_citations : Bool

/-- Steps 1-2 of `ANNCandidateSelector.fetch_candidates` (lines 48-52):
query the index for `top_k + 1` nearest ids, remove the first occurrence
of `doc_id` if present (Python `list.remove`), truncate to `top_k`. -/
def ANNCandidateSelector.directCandidates (s : ANNCandidateSelector)
    (doc_id : DocId) (doc : Document) : List DocId :=
  let nn_candidates := s.get_nns_by_vector (s.embed doc) (s.top_k + 1)
  let nn_candidates :=
    if doc_id ∈ nn_candidates then nn_candidates.erase doc_id else nn_candidates
  nn_candidates.take s.top_k

/-- `ANNCandidateSelector.fetch_candidates` (lines 44-65): resolve the
query document, fetch direct hits, optionally extend with candidates'
outbound citations, intersect with the pool as a set, remove `doc_id`,
and return the set's elements as a list (`list(candidate_ids)`).
A Python set enumerates in unspecified order, so the returned set is
modelled as a canonical duplicate-free list of its elements. -/
def ANNCandidateSelector.fetch_candidates (s : ANNCandidateSelector)
    (doc_id : DocId) (candidate_ids_pool : List DocId) :
    Except FetchError (List DocId) :=
  match s.corpus.get doc_id with
  | none => Except.error (FetchError.notFound doc_id)
  | some doc =>
    let direct := s.directCandidates doc_id doc
    let withExt : Except FetchError (List DocId) :=
      if s.extend_candidate_citations then
        match extendCitations s.corpus direct with
        | Except.error e => Except.error e
        | Except.ok extended_candidate_ids =>
            Except.ok (direct ++ extended_candidate_ids)
      else Except.ok direct
    match withExt with
    | Except.error e => Except.error e
    | Except.ok candidate_ids =>
        let pool := candidate_ids_pool.toFinset
        let intersected := (candidate_ids.dedup).filter (fun c => decide (c ∈ pool))
        Except.ok (intersected.filter (fun c => c != doc_id))

/-- Failure opening the persisted lexical index (directory unreadable,
schema absent or incompatible): what whoosh's `open_dir` raises. -/
inductive IndexError where
  | unavailable
deriving DecidableEq, Repr

/-- `BM25CandidateSelector` (lines 68-105): a corpus, the searcher
obtained from the opened index (modelled as the composite of
`query_parser.parse` and `searcher.search`: query text and result limit
in, ranked hit ids out), `top_k` and the expansion flag. -/
structure BM25CandidateSelector where
  corpus : Corpus
  search : String → Nat → List DocId
  top_k : Nat
  extend_candidate_citations : Bool

/-- `BM25CandidateSelector.__init__` (lines 69-86): `open_dir` runs at
construction; if it fails, the constructor propagates the error and no
selector value is produced.  The outcome of opening the on-disk index is
external, so it is a parameter. -/
def mkBM25CandidateSelector
    (open_dir_result : Except IndexError (String → Nat → List DocId))
    (corpus : Corpus) (top_k : Nat) (extend_candidate_citations : Bool) :
    Except IndexError BM25CandidateSelector :=
  match open_dir_result with
  | Except.error e => Except.error e
  | Except.ok search =>
      Except.ok ⟨corpus, search, top_k, extend_candidate_citations⟩

/-- Steps 2-3 of `BM25CandidateSelector.fetch_candidates` (lines 91-94):
run the parsed title query with limit `top_k + 1`, extract hit ids,
truncate to `top_k`. -/
def BM25CandidateSelector.directCandidates (s : BM25CandidateSelector)
    (query_text : String) : List DocId :=
  (s.search query_text (s.top_k + 1)).take s.top_k

/-- `BM25CandidateSelector.fetch_candidates` (lines 88-105): resolve the
query document's title, fetch ranked hits, optionally extend with
candidates' outbound citations, then keep (as a list, in order) the ids
that are in the pool and differ from `doc_id`. -/
def BM25CandidateSelector.fetch_candidates (s : BM25CandidateSelector)
    (doc_id : DocId) (candidate_ids_pool : List DocId) :
    Except FetchError (List DocId) :=
  match s.corpus.get doc_id with
  | none => Except.error (FetchError.notFound doc_id)
  | some query_doc =>
    let direct := s.directCandidates query_doc.title
    let withExt : Except FetchError (List DocId) :=
      if s.extend_candidate_citations then
        match extendCitations s.corpus direct with
        | Except.error e => Except.error e
        | Except.ok extended_candidate_ids =>
            Except.ok (direct ++ extended_candidate_ids)
      else Except.ok direct
    match withExt with
    | Except.error e => Except.error e
    | Except.ok candidate_ids =>
        let pool := candidate_ids_pool.toFinset
        Except.ok
          (candidate_ids.filter (fun c => decide (c ∈ pool) && c != doc_id))

/-! ### Characterization lemmas -/

/-- Unfolding `ANNCandidateSelector.fetch_candidates` when `doc_id` resolves
and expansion is disabled. -/
lemma ann_fetch_eq_of_not_extend (s : ANNCandidateSelector) (doc_id : DocId)
    (doc : Document) (pool : List DocId)
    (hdoc : s.corpus.get doc_id = some doc)
    (hext : s.extend_candidate_citations = false) :
    s.fetch_candidates doc_id pool =
      Except.ok
        (((s.directCandidates doc_id doc).dedup.filter
            (fun c => decide (c ∈ pool.toFinset))).filter
          (fun c => c != doc_id)) := by
  unfold ANNCandidateSelector.fetch_candidates
  rw [hdoc, hext]
  simp

/-- Unfolding `ANNCandidateSelector.fetch_candidates` when `doc_id` resolves,
expansion is enabled, and every expansion lookup succeeds. -/
lemma ann_fetch_eq_of_extend (s : ANNCandidateSelector) (doc_id : DocId)
    (doc : Document) (pool ext : List DocId)
    (hdoc : s.corpus.get doc_id = some doc)
    (hext : s.extend_candidate_citations = true)
    (hok : extendCitations s.corpus (s.directCandidates doc_id doc) =
      Except.ok ext) :
    s.fetch_candidates doc_id pool =
      Except.ok
        ((((s.directCandidates doc_id doc) ++ ext).dedup.filter
            (fun c => decide (c ∈ pool.toFinset))).filter
          (fun c => c != doc_id)) := by
  unfold ANNCandidateSelector.fetch_candidates
  rw [hdoc, hext]
  simp [hok]

/-- Unfolding `ANNCandidateSelector.fetch_candidates` when expansion is
enabled and some expansion lookup fails: the failure propagates. -/
lemma ann_fetch_eq_of_extend_err (s : ANNCandidateSelector) (doc_id : DocId)
    (doc : Document) (pool : List DocId) (e : FetchError)
    (hdoc : s.corpus.get doc_id = some doc)
    (hext : s.extend_candidate_citations = true)
    (herr : extendCitations s.corpus (s.directCandidates doc_id doc) =
      Except.error e) :
    s.fetch_candidates doc_id pool = Except.error e := by
  unfold ANNCandidateSelector.fetch_candidates
  rw [hdoc, hext]
  simp [herr]

/-- Unfolding `BM25CandidateSelector.fetch_candidates` when `doc_id` resolves
and expansion is disabled. -/
lemma bm25_fetch_eq_of_not_extend (s : BM25CandidateSelector) (doc_id : DocId)
    (doc : Document) (pool : List DocId)
    (hdoc : s.corpus.get doc_id = some doc)
    (hext : s.extend_candidate_citations = false) :
    s.fetch_candidates doc_id pool =
      Except.ok
        ((s.directCandidates doc.title).filter
          (fun c => decide (c ∈ pool.toFinset) && c != doc_id)) := by
  unfold BM25CandidateSelector.fetch_candidates
  rw [hdoc, hext]
  simp

/-- Unfolding `BM25CandidateSelector.fetch_candidates` when `doc_id`
resolves, expansion is enabled, and every expansion lookup succeeds. -/
lemma bm25_fetch_eq_of_extend (s : BM25CandidateSelector) (doc_id : DocId)
    (doc : Document) (pool ext : List DocId)
    (hdoc : s.corpus.get doc_id = some doc)
    (hext : s.extend_candidate_citations = true)
    (hok : extendCitations s.corpus (s.directCandidates doc.title) =
      Except.ok ext) :
    s.fetch_candidates doc_id pool =
      Except.ok
        (((s.directCandidates doc.title) ++ ext).filter
          (fun c => decide (c ∈ pool.toFinset) && c != doc_id)) := by
  unfold BM25CandidateSelector.fetch_candidates
  rw [hdoc, hext]
  simp [hok]

/-- Unfolding `BM25CandidateSelector.fetch_candidates` when expansion is
enabled and some expansion lookup fails: the failure propagates. -/
lemma bm25_fetch_eq_of_extend_err (s : BM25CandidateSelector) (doc_id : DocId)
    (doc : Document) (pool : List DocId) (e : FetchError)
    (hdoc : s.corpus.get doc_id = some doc)
    (hext : s.extend_candidate_citations = true)
    (herr : extendCitations s.corpus (s.directCandidates doc.title) =
      Except.error e) :
    s.fetch_candidates doc_id pool = Except.error e := by
  unfold BM25CandidateSelector.fetch_candidates
  rw [hdoc, hext]
  simp [herr]

/-- Inversion: any successful result of the embedding selector is the
canonical duplicate-free intersection-with-pool of some candidate list that
has the direct hits as a prefix. -/
lemma ann_fetch_ok_inv (s : ANNCandidateSelector) (d : DocId)
    (p r : List DocId) (h : s.fetch_candidates d p = Except.ok r) :
    ∃ doc candidate_ids, s.corpus.get d = some doc ∧
      s.directCandidates d doc <+: candidate_ids ∧
      r = ((candidate_ids.dedup.filter
            (fun c => decide (c ∈ p.toFinset))).filter (fun c => c != d)) := by
  unfold ANNCandidateSelector.fetch_candidates at h
  cases hdoc : s.corpus.get d with
  | none => rw [hdoc] at h; simp at h
  | some doc =>
    rw [hdoc] at h
    cases hext : s.extend_candidate_citations with
    | false =>
      simp only [hext, if_false, Bool.false_eq_true] at h
      refine ⟨doc, s.directCandidates d doc, rfl, List.prefix_rfl, ?_⟩
      simpa using h.symm
    | true =>
      simp only [hext, if_true] at h
      cases hok : extendCitations s.corpus (s.directCandidates d doc) with
      | error e => rw [hok] at h; simp at h
      | ok ext =>
        rw [hok] at h
        refine ⟨doc, s.directCandidates d doc ++ ext, rfl,
          List.prefix_append _ _, ?_⟩
        simpa using h.symm

/-- Inversion: any successful result of the lexical selector is the
pool-and-self filter of some candidate list that has the direct hits as a
prefix (and equals them when expansion is disabled). -/
lemma bm25_fetch_ok_inv (s : BM25CandidateSelector) (d : DocId)
    (p r : List DocId) (h : s.fetch_candidates d p = Except.ok r) :
    ∃ doc candidate_ids, s.corpus.get d = some doc ∧
      s.directCandidates doc.title <+: candidate_ids ∧
      (s.extend_candidate_citations = false →
        candidate_ids = s.directCandidates doc.title) ∧
      r = candidate_ids.filter
            (fun c => decide (c ∈ p.toFinset) && c != d) := by
  unfold BM25CandidateSelector.fetch_candidates at h
  cases hdoc : s.corpus.get d with
  | none => rw [hdoc] at h; simp at h
  | some doc =>
    rw [hdoc] at h
    cases hext : s.extend_candidate_citations with
    | false =>
      simp only [hext, if_false, Bool.false_eq_true] at h
      refine ⟨doc, s.directCandidates doc.title, rfl, List.prefix_rfl,
        fun _ => rfl, ?_⟩
      simpa using h.symm
    | true =>
      simp only [hext, if_true] at h
      cases hok : extendCitations s.corpus (s.directCandidates doc.title) with
      | error e => rw [hok] at h; simp at h
      | ok ext =>
        rw [hok] at h
        refine ⟨doc, s.directCandidates doc.title ++ ext, rfl,
          List.prefix_append _ _,
          fun hc => absurd hc (by decide), ?_⟩
        simpa using h.symm

/-- The expansion loop succeeds when every retrieved candidate resolves in
the corpus. -/
lemma extendCitations_ok_of_resolvable (corpus : Corpus) (l : List DocId)
    (h : ∀ c ∈ l, (corpus.get c).isSome) :
    ∃ ext, extendCitations corpus l = Except.ok ext := by
  induction l with
  | nil => exact ⟨[], rfl⟩
  | cons cid rest ih =>
    have hcid := h cid (by simp)
    cases hget : corpus.get cid with
    | none => rw [hget] at hcid; simp at hcid
    | some d =>
      obtain ⟨tail, htail⟩ := ih (fun c hc => h c (by simp [hc]))
      exact ⟨d.out_citations ++ tail, by
        unfold extendCitations; rw [hget, htail]⟩

/-- The expansion loop fails with a `NotFound` (for some unresolvable
candidate) whenever any retrieved candidate is absent from the corpus. -/
lemma extendCitations_err_of_missing (corpus : Corpus) (l : List DocId)
    (c : DocId) (hc : c ∈ l) (hmiss : corpus.get c = none) :
    ∃ cid, corpus.get cid = none ∧
      extendCitations corpus l = Except.error (FetchError.notFound cid) := by
  induction l with
  | nil => simp at hc
  | cons cid rest ih =>
    cases hget : corpus.get cid with
    | none => exact ⟨cid, hget, by unfold extendCitations; rw [hget]⟩
    | some d =>
      have hcr : c ∈ rest := by
        rcases List.mem_cons.mp hc with h1 | h1
        · subst h1; rw [hget] at hmiss; simp at hmiss
        · exact h1
      obtain ⟨cid2, hcid2, herr⟩ := ih hcr
      exact ⟨cid2, hcid2, by unfold extendCitations; rw [hget, herr]⟩

/-! ### Claims -/

/-- C2: for every valid doc_id and pool, the result of fetch_candidates on
either selector is a subset of the pool and does not contain doc_id, even
when doc_id is in the pool or re-enters via citation expansion. -/
theorem fetch_candidates_subset_pool_excludes_doc
    (s : ANNCandidateSelector) (t : BM25CandidateSelector)
    (d1 d2 : DocId) (p1 p2 r1 r2 : List DocId)
    (h1 : s.fetch_candidates d1 p1 = Except.ok r1)
    (h2 : t.fetch_candidates d2 p2 = Except.ok r2) :
    (∀ x ∈ r1, x ∈ p1 ∧ x ≠ d1) ∧ (∀ x ∈ r2, x ∈ p2 ∧ x ≠ d2) := by
  constructor
  · obtain ⟨doc, cand, -, -, hr⟩ := ann_fetch_ok_inv s d1 p1 r1 h1
    subst hr
    intro x hx
    simp only [List.mem_filter, decide_eq_true_eq, List.mem_toFinset,
      bne_iff_ne, ne_eq] at hx
    exact ⟨hx.1.2, hx.2⟩
  · obtain ⟨doc, cand, -, -, -, hr⟩ := bm25_fetch_ok_inv t d2 p2 r2 h2
    subst hr
    intro x hx
    simp only [List.mem_filter, Bool.and_eq_true, decide_eq_true_eq,
      List.mem_toFinset, bne_iff_ne, ne_eq] at hx
    exact ⟨hx.2.1, hx.2.2⟩

/-- Witness for C2 at a concrete corpus, index and pool. -/
theorem fetch_candidates_subset_pool_excludes_doc_witness :
    (∀ x ∈ [2, 3], x ∈ [1, 2, 3, 4] ∧ x ≠ 1) ∧
    (∀ x ∈ [3], x ∈ [1, 3] ∧ x ≠ 1) :=
  fetch_candidates_subset_pool_excludes_doc
    ⟨[(1, ⟨"t", "a", []⟩)], fun _ => [0], fun _ _ => [1, 2, 3], 2, false⟩
    ⟨[(1, ⟨"t", "a", []⟩)], fun _ _ => [1, 3], 2, false⟩
    1 1 [1, 2, 3, 4] [1, 3] [2, 3] [3] (by rfl) (by rfl)

/-- C4: an unresolvable doc_id makes fetch_candidates on either selector
signal a NotFound failure; it never silently returns an empty collection. -/
theorem fetch_candidates_not_found
    (s : ANNCandidateSelector) (t : BM25CandidateSelector)
    (d1 d2 : DocId) (p1 p2 : List DocId)
    (h1 : s.corpus.get d1 = none) (h2 : t.corpus.get d2 = none) :
    s.fetch_candidates d1 p1 = Except.error (FetchError.notFound d1) ∧
    t.fetch_candidates d2 p2 = Except.error (FetchError.notFound d2) := by
  constructor
  · unfold ANNCandidateSelector.fetch_candidates
    rw [h1]
  · unfold BM25CandidateSelector.fetch_candidates
    rw [h2]

/-- Witness for C4: an empty corpus resolves no id. -/
theorem fetch_candidates_not_found_witness :
    ANNCandidateSelector.fetch_candidates
        ⟨[], fun _ => [0], fun _ _ => [2], 5, true⟩ 7 [2, 3] =
      Except.error (FetchError.notFound 7) ∧
    BM25CandidateSelector.fetch_candidates
        ⟨[], fun _ _ => [2], 5, true⟩ 7 [2, 3] =
      Except.error (FetchError.notFound 7) :=
  fetch_candidates_not_found
    ⟨[], fun _ => [0], fun _ _ => [2], 5, true⟩
    ⟨[], fun _ _ => [2], 5, true⟩ 7 7 [2, 3] [2, 3] (by rfl) (by rfl)

/-- C6: fetch_candidates is deterministic: two calls with identical
arguments against an unchanged selector state (corpus, embedding model,
index, configuration) produce identical results.  Both selectors are pure
reads of immutable backing structures, embedded as pure functions. -/
theorem fetch_candidates_deterministic
    (s : ANNCandidateSelector) (t : BM25CandidateSelector)
    (d1 d2 : DocId) (p1 p2 : List DocId) :
    s.fetch_candidates d1 p1 = s.fetch_candidates d1 p1 ∧
    t.fetch_candidates d2 p2 = t.fetch_candidates d2 p2 :=
  ⟨rfl, rfl⟩

/-- C7: both selectors consider at most top_k directly retrieved hits
(request top_k + 1, for the embedding selector drop doc_id if present,
then truncate to top_k); and top_k does not bound the final result size:
a concrete call with top_k = 1 returns three ids after expansion. -/
theorem direct_hits_bounded_by_top_k
    (s : ANNCandidateSelector) (t : BM25CandidateSelector)
    (d : DocId) (doc : Document) (q : String) :
    (s.directCandidates d doc).length ≤ s.top_k ∧
    (t.directCandidates q).length ≤ t.top_k ∧
    ANNCandidateSelector.fetch_candidates
        ⟨[(1, ⟨"t", "a", []⟩), (2, ⟨"c", "a", [3, 4]⟩)], fun _ => [0],
          fun _ _ => [2], 1, true⟩ 1 [2, 3, 4] = Except.ok [2, 3, 4] ∧
    1 < ([2, 3, 4] : List DocId).length := by
  refine ⟨?_, ?_, by rfl, by decide⟩
  · unfold ANNCandidateSelector.directCandidates
    simp only [List.length_take]
    exact min_le_left _ _
  · unfold BM25CandidateSelector.directCandidates
    simp only [List.length_take]
    exact min_le_left _ _

/-- C1 counterexample: the lexical selector does not deduplicate.  With
citation expansion enabled, a direct hit (id 3) that is also cited by
another direct hit (id 2 cites [3, 4]) appears twice in the returned
list, refuting the claim that each id appears at most once. -/
theorem fetch_candidates_no_duplicates_cex :
    BM25CandidateSelector.fetch_candidates
        ⟨[(1, ⟨"t", "a", []⟩), (2, ⟨"c", "a", [3, 4]⟩), (3, ⟨"b", "a", [5]⟩)],
          fun _ _ => [2, 3], 2, true⟩ 1 [2, 3, 4, 5] =
      Except.ok [2, 3, 3, 4, 5] ∧
    List.count 3 ([2, 3, 3, 4, 5] : List DocId) = 2 := by
  exact ⟨by rfl, by decide⟩

/-- C1 amended: the embedding selector's result never contains duplicates
(it is materialized through a set); the lexical selector's result is
duplicate-free when citation expansion is disabled, provided the backing
searcher returns distinct hits — with expansion enabled its returned list
may repeat an id. -/
theorem fetch_candidates_no_duplicates_amended
    (s : ANNCandidateSelector) (t : BM25CandidateSelector)
    (d1 d2 : DocId) (p1 p2 r1 r2 : List DocId)
    (h1 : s.fetch_candidates d1 p1 = Except.ok r1)
    (hext : t.extend_candidate_citations = false)
    (hhits : ∀ q n, (t.search q n).Nodup)
    (h2 : t.fetch_candidates d2 p2 = Except.ok r2) :
    r1.Nodup ∧ r2.Nodup := by
  constructor
  · obtain ⟨doc, cand, -, -, hr⟩ := ann_fetch_ok_inv s d1 p1 r1 h1
    subst hr
    exact (cand.nodup_dedup.filter _).filter _
  · obtain ⟨doc, cand, hdoc, -, hcand, hr⟩ := bm25_fetch_ok_inv t d2 p2 r2 h2
    subst hr
    rw [hcand hext]
    refine List.Nodup.filter _ ?_
    unfold BM25CandidateSelector.directCandidates
    exact (hhits doc.title (t.top_k + 1)).sublist (List.take_sublist _ _)

/-- Witness for the amended C1 at a concrete corpus, index and pool. -/
theorem fetch_candidates_no_duplicates_amended_witness :
    ([2, 3] : List DocId).Nodup ∧ ([3, 2] : List DocId).Nodup :=
  fetch_candidates_no_duplicates_amended
    ⟨[(1, ⟨"t", "a", []⟩)], fun _ => [0], fun _ _ => [2, 3], 2, false⟩
    ⟨[(1, ⟨"t", "a", []⟩)], fun _ _ => [3, 2], 2, false⟩
    1 1 [2, 3] [2, 3] [2, 3] [3, 2] (by rfl) rfl
    (fun _ _ => by show ([3, 2] : List DocId).Nodup; decide) (by rfl)

/-- C3: with the same selector state (corpus, index, top_k, pool),
enabling citation expansion yields a result set that contains every id of
the result with expansion disabled, for both selectors. -/
theorem fetch_candidates_expansion_monotone
    (s : ANNCandidateSelector) (t : BM25CandidateSelector)
    (d1 d2 : DocId) (p1 p2 rs1 rs0 rt1 rt0 : List DocId)
    (hs1 : ANNCandidateSelector.fetch_candidates
      {s with extend_candidate_citations := true} d1 p1 = Except.ok rs1)
    (hs0 : ANNCandidateSelector.fetch_candidates
      {s with extend_candidate_citations := false} d1 p1 = Except.ok rs0)
    (ht1 : BM25CandidateSelector.fetch_candidates
      {t with extend_candidate_citations := true} d2 p2 = Except.ok rt1)
    (ht0 : BM25CandidateSelector.fetch_candidates
      {t with extend_candidate_citations := false} d2 p2 = Except.ok rt0) :
    (∀ x ∈ rs0, x ∈ rs1) ∧ (∀ x ∈ rt0, x ∈ rt1) := by
  constructor
  · obtain ⟨doc, cand, hdoc, hpre, hr1⟩ :=
      ann_fetch_ok_inv _ d1 p1 rs1 hs1
    have hs0e := ann_fetch_eq_of_not_extend
      {s with extend_candidate_citations := false} d1 doc p1 hdoc rfl
    rw [hs0e] at hs0
    have hr0 := (Except.ok.injEq _ _).mp hs0
    subst hr1
    intro x hx
    rw [← hr0] at hx
    simp only [List.mem_filter, List.mem_dedup] at hx ⊢
    exact ⟨⟨hpre.subset hx.1.1, hx.1.2⟩, hx.2⟩
  · obtain ⟨doc, cand, hdoc, hpre, -, hr1⟩ :=
      bm25_fetch_ok_inv _ d2 p2 rt1 ht1
    have ht0e := bm25_fetch_eq_of_not_extend
      {t with extend_candidate_citations := false} d2 doc p2 hdoc rfl
    rw [ht0e] at ht0
    have hr0 := (Except.ok.injEq _ _).mp ht0
    subst hr1
    intro x hx
    rw [← hr0] at hx
    simp only [List.mem_filter] at hx ⊢
    exact ⟨hpre.subset hx.1, hx.2⟩

/-- Witness for C3: a concrete call where expansion grows {2} to {2, 5}. -/
theorem fetch_candidates_expansion_monotone_witness :
    (∀ x ∈ [2], x ∈ [2, 5]) ∧ (∀ x ∈ [2], x ∈ [2, 5]) :=
  fetch_candidates_expansion_monotone
    ⟨[(1, ⟨"t", "a", []⟩), (2, ⟨"c", "a", [5]⟩)], fun _ => [0],
      fun _ _ => [2], 1, false⟩
    ⟨[(1, ⟨"t", "a", []⟩), (2, ⟨"c", "a", [5]⟩)], fun _ _ => [2], 1, false⟩
    1 1 [2, 5] [2, 5] [2, 5] [2] [2, 5] [2]
    (by rfl) (by rfl) (by rfl) (by rfl)

/-- C5 counterexample: with citation expansion enabled, the expansion
lookups run before pool intersection, so a directly retrieved stale id
(9, absent from the corpus) makes the call raise NotFound even though the
pool is empty — refuting "returns an empty result and does not raise". -/
theorem fetch_candidates_empty_pool_cex :
    ANNCandidateSelector.fetch_candidates
        ⟨[(1, ⟨"t", "a", []⟩)], fun _ => [0], fun _ _ => [9], 2, true⟩ 1 [] =
      Except.error (FetchError.notFound 9) := by
  rfl

/-- C5 amended: with an empty candidate pool, fetch_candidates returns an
empty result on both selectors — provided every directly retrieved hit
resolves in the corpus (vacuously so when expansion is disabled); a stale
direct hit instead raises NotFound regardless of the pool. -/
theorem fetch_candidates_empty_pool_amended
    (s : ANNCandidateSelector) (t : BM25CandidateSelector)
    (d1 d2 : DocId) (doc1 doc2 : Document)
    (hd1 : s.corpus.get d1 = some doc1) (hd2 : t.corpus.get d2 = some doc2)
    (hres1 : s.extend_candidate_citations = true →
      ∀ c ∈ s.directCandidates d1 doc1, (s.corpus.get c).isSome)
    (hres2 : t.extend_candidate_citations = true →
      ∀ c ∈ t.directCandidates doc2.title, (t.corpus.get c).isSome) :
    s.fetch_candidates d1 [] = Except.ok [] ∧
    t.fetch_candidates d2 [] = Except.ok [] := by
  constructor
  · cases hext : s.extend_candidate_citations with
    | false =>
      rw [ann_fetch_eq_of_not_extend s d1 doc1 [] hd1 hext]
      simp
    | true =>
      obtain ⟨ext, hok⟩ :=
        extendCitations_ok_of_resolvable s.corpus _ (hres1 hext)
      rw [ann_fetch_eq_of_extend s d1 doc1 [] ext hd1 hext hok]
      simp
  · cases hext : t.extend_candidate_citations with
    | false =>
      rw [bm25_fetch_eq_of_not_extend t d2 doc2 [] hd2 hext]
      simp
    | true =>
      obtain ⟨ext, hok⟩ :=
        extendCitations_ok_of_resolvable t.corpus _ (hres2 hext)
      rw [bm25_fetch_eq_of_extend t d2 doc2 [] ext hd2 hext hok]
      simp

/-- Witness for the amended C5: an embedding selector with expansion
disabled and a stale direct hit (id 9, absent from the corpus) still
returns an empty result on the empty pool, and a lexical selector with
expansion enabled and resolvable direct hits does too. -/
theorem fetch_candidates_empty_pool_amended_witness :
    ANNCandidateSelector.fetch_candidates
        ⟨[(1, ⟨"t", "a", []⟩)], fun _ => [0], fun _ _ => [9], 2, false⟩
        1 [] = Except.ok [] ∧
    BM25CandidateSelector.fetch_candidates
        ⟨[(1, ⟨"t", "a", []⟩), (2, ⟨"c", "a", [5]⟩)], fun _ _ => [2], 3,
          true⟩ 1 [] = Except.ok [] :=
  fetch_candidates_empty_pool_amended
    ⟨[(1, ⟨"t", "a", []⟩)], fun _ => [0], fun _ _ => [9], 2, false⟩
    ⟨[(1, ⟨"t", "a", []⟩), (2, ⟨"c", "a", [5]⟩)], fun _ _ => [2], 3, true⟩
    1 1 ⟨"t", "a", []⟩ ⟨"t", "a", []⟩ (by rfl) (by rfl)
    (fun h => absurd h (by decide))
    (fun _ => by intro c hc; fin_cases hc; rfl)

/-- C8: with expansion enabled, every directly retrieved candidate is
looked up in the corpus; a direct hit absent from the corpus makes the
call raise NotFound (for some unresolvable candidate) instead of being
filtered out, on both selectors. -/
theorem expansion_missing_candidate_raises
    (s : ANNCandidateSelector) (t : BM25CandidateSelector)
    (d1 d2 c1 c2 : DocId) (doc1 doc2 : Document) (p1 p2 : List DocId)
    (hs : s.extend_candidate_citations = true)
    (ht : t.extend_candidate_citations = true)
    (hd1 : s.corpus.get d1 = some doc1) (hd2 : t.corpus.get d2 = some doc2)
    (hm1 : c1 ∈ s.directCandidates d1 doc1) (hg1 : s.corpus.get c1 = none)
    (hm2 : c2 ∈ t.directCandidates doc2.title)
    (hg2 : t.corpus.get c2 = none) :
    (∃ cid, s.corpus.get cid = none ∧
      s.fetch_candidates d1 p1 = Except.error (FetchError.notFound cid)) ∧
    (∃ cid, t.corpus.get cid = none ∧
      t.fetch_candidates d2 p2 = Except.error (FetchError.notFound cid)) := by
  constructor
  · obtain ⟨cid, hcid, herr⟩ :=
      extendCitations_err_of_missing s.corpus _ c1 hm1 hg1
    exact ⟨cid, hcid, ann_fetch_eq_of_extend_err s d1 doc1 p1 _ hd1 hs herr⟩
  · obtain ⟨cid, hcid, herr⟩ :=
      extendCitations_err_of_missing t.corpus _ c2 hm2 hg2
    exact ⟨cid, hcid, bm25_fetch_eq_of_extend_err t d2 doc2 p2 _ hd2 ht herr⟩

/-- Witness for C8: index returns stale id 9 on both selectors. -/
theorem expansion_missing_candidate_raises_witness :
    (∃ cid,
      Corpus.get [(1, ⟨"t", "a", []⟩)] cid = none ∧
      ANNCandidateSelector.fetch_candidates
          ⟨[(1, ⟨"t", "a", []⟩)], fun _ => [0], fun _ _ => [9], 2, true⟩
          1 [9] = Except.error (FetchError.notFound cid)) ∧
    (∃ cid,
      Corpus.get [(1, ⟨"t", "a", []⟩)] cid = none ∧
      BM25CandidateSelector.fetch_candidates
          ⟨[(1, ⟨"t", "a", []⟩)], fun _ _ => [9], 2, true⟩
          1 [9] = Except.error (FetchError.notFound cid)) :=
  expansion_missing_candidate_raises
    ⟨[(1, ⟨"t", "a", []⟩)], fun _ => [0], fun _ _ => [9], 2, true⟩
    ⟨[(1, ⟨"t", "a", []⟩)], fun _ _ => [9], 2, true⟩
    1 1 9 9 ⟨"t", "a", []⟩ ⟨"t", "a", []⟩ [9] [9]
    rfl rfl (by rfl) (by rfl) (by decide) (by rfl) (by decide) (by rfl)

/-- C9: opening the persisted lexical index happens in the constructor: an
opening failure (directory unreadable, schema absent or incompatible)
propagates from construction, and fetch_candidates on any constructed
selector can only fail with NotFound — never with an index failure, so the
opening failure cannot be deferred to the first query. -/
theorem bm25_index_open_fail_fast
    (open_dir_result : Except IndexError (String → Nat → List DocId))
    (corpus : Corpus) (top_k : Nat) (ext : Bool) (e : IndexError)
    (h : open_dir_result = Except.error e)
    (t : BM25CandidateSelector) (d : DocId) (p : List DocId)
    (err : FetchError) (herr : t.fetch_candidates d p = Except.error err) :
    mkBM25CandidateSelector open_dir_result corpus top_k ext =
      Except.error e ∧
    ∃ i, err = FetchError.notFound i := by
  refine ⟨by rw [h]; rfl, ?_⟩
  cases err with
  | notFound i => exact ⟨i, rfl⟩

/-- Witness for C9: a failed open propagates; a constructed selector's
fetch failure is a NotFound. -/
theorem bm25_index_open_fail_fast_witness :
    mkBM25CandidateSelector (Except.error IndexError.unavailable) [] 5 true =
      Except.error IndexError.unavailable ∧
    ∃ i, FetchError.notFound 1 = FetchError.notFound i :=
  bm25_index_open_fail_fast (Except.error IndexError.unavailable) [] 5 true
    IndexError.unavailable rfl
    ⟨[], fun _ _ => [], 5, false⟩ 1 [] (FetchError.notFound 1) (by rfl)

/-- C10: a query document with an empty title makes the lexical selector
return an empty result rather than raise: the parsed empty query yields
zero hits (spec section 4.3 failure mode of the external query parser),
so the direct hit list, expansion and filtered result are all empty. -/
theorem bm25_empty_title_returns_empty
    (t : BM25CandidateSelector) (d : DocId) (doc : Document)
    (p : List DocId) (hdoc : t.corpus.get d = some doc)
    (htitle : doc.title = "")
    (hsearch : t.search "" (t.top_k + 1) = []) :
    t.fetch_candidates d p = Except.ok [] := by
  have hdirect : t.directCandidates doc.title = [] := by
    unfold BM25CandidateSelector.directCandidates
    rw [htitle, hsearch]
    exact List.take_nil
  cases hext : t.extend_candidate_citations with
  | false =>
    rw [bm25_fetch_eq_of_not_extend t d doc p hdoc hext, hdirect]
    rfl
  | true =>
    rw [bm25_fetch_eq_of_extend t d doc p [] hdoc hext
      (by rw [hdirect]; rfl), hdirect]
    rfl

/-- Witness for C10: a corpus whose document 1 has an empty title, with a
searcher returning no hits on the empty query. -/
theorem bm25_empty_title_returns_empty_witness :
    BM25CandidateSelector.fetch_candidates
        ⟨[(1, ⟨"", "a", [2]⟩)], fun q _ => if q = "" then [] else [2], 4,
          true⟩ 1 [2, 3] = Except.ok [] :=
  bm25_empty_title_returns_empty
    ⟨[(1, ⟨"", "a", [2]⟩)], fun q _ => if q = "" then [] else [2], 4, true⟩
    1 ⟨"", "a", [2]⟩ [2, 3] (by rfl) rfl (by rfl)

end Citeomatic
